import Mathlib

/-!
Verification of `test_infra/stacks/base_stack.py` (aws-sdk-pandas test
infrastructure).  The file under verification is a declarative AWS CDK stack:
`BaseStack.__init__` registers a fixed graph of resource declarations (a VPC,
per-public-subnet SSM parameters, a KMS key and alias, an S3 bucket, an IAM
role, a Glue database, a Lake Formation permission grant, a log group and
stream, and a sequence of `CfnOutput` records) against the provided scope.

Shallow embedding: the construction is modelled as a pure function from a
construct context to the ordered list of resource declarations it registers.
The context carries everything the CDK framework derives outside this file:
the VPC's auto-derived public and private subnets (each public subnet
optionally owning an `EIP` child, mirroring `node.find_child("EIP")` which
raises when absent), and the deferred tokens (`region`, `vpc_id`, `key_arn`,
`bucket_name`, `role_arn`, log group/stream names) that the engine resolves
at synthesis time.  Failure of an unguarded access — `find_child("EIP")` on
a subnet without that child, or indexing `public_subnets[0..2]` /
`private_subnets[0]` out of range — aborts the construction, modelled by
`Option`.
-/

/-- A public subnet auto-derived by the `ec2.Vpc` construct.  `nodeId` is the
construct-tree id (`public_subnet.node.id`), `subnetId` the deferred
`subnet_id` token, and `eipRef` the `ref` of the subnet's `EIP` child when
that child exists (`node.find_child("EIP")` raises otherwise). -/
structure PublicSubnet where
  nodeId : String
  subnetId : String
  eipRef : Option String
deriving DecidableEq, Repr

/-- A private subnet auto-derived by the `ec2.Vpc` construct. -/
structure PrivateSubnet where
  subnetId : String
deriving DecidableEq, Repr

/-- The construct context `BaseStack.__init__` runs in: the framework-derived
subnets of the VPC and the deferred tokens referenced by the declarations. -/
structure Ctx where
  publicSubnets : List PublicSubnet
  privateSubnets : List PrivateSubnet
  region : String
  vpcId : String
  keyArn : String
  bucketName : String
  roleArn : String
  logGroupName : String
  logStreamName : String
deriving DecidableEq, Repr

/-- Parameters of the `ec2.Vpc` declaration. -/
structure VpcProps where
  cidr : String
  enableDnsHostnames : Bool
  enableDnsSupport : Bool
  tags : List (String × String)
deriving DecidableEq, Repr

/-- Parameters of one `ssm.StringParameter` declaration. -/
structure StringParameterProps where
  stringValue : String
  parameterName : String
  description : String
deriving DecidableEq, Repr

/-- One `iam.PolicyStatement`. -/
structure PolicyStatement where
  sid : Option String
  actions : List String
  principals : List String
  resources : List String
deriving DecidableEq, Repr

/-- Parameters of the `kms.Key` declaration. -/
structure KeyProps where
  description : String
  policy : List PolicyStatement
deriving DecidableEq, Repr

/-- Parameters of the `kms.Alias` declaration. -/
structure AliasProps where
  aliasName : String
  targetKeyId : String
deriving DecidableEq, Repr

/-- One `s3.LifecycleRule`. -/
structure LifecycleRule where
  id : String
  enabled : Bool
  expirationDays : Nat
  abortIncompleteMultipartUploadAfterDays : Nat
deriving DecidableEq, Repr

/-- The `s3.BlockPublicAccess` flag block. -/
structure BlockPublicAccess where
  blockPublicAcls : Bool
  blockPublicPolicy : Bool
  ignorePublicAcls : Bool
  restrictPublicBuckets : Bool
deriving DecidableEq, Repr

/-- Parameters of the `s3.Bucket` declaration. -/
structure BucketProps where
  blockPublicAccess : BlockPublicAccess
  lifecycleRules : List LifecycleRule
  versioned : Bool
deriving DecidableEq, Repr

/-- Parameters of the `iam.Role` declaration. -/
structure RoleProps where
  roleName : String
  assumedBy : String
  managedPolicies : List String
  inlinePolicies : List (String × List PolicyStatement)
deriving DecidableEq, Repr

/-- Parameters of the `glue.Database` declaration. -/
structure DatabaseProps where
  databaseName : String
  locationUri : String
deriving DecidableEq, Repr

/-- Parameters of the `lf.CfnPermissions` declaration. -/
structure PermissionsProps where
  dataLakePrincipalIdentifier : String
  databaseName : String
  tableWildcard : Bool
  permissions : List String
deriving DecidableEq, Repr

/-- Parameters of the `logs.LogGroup` declaration. -/
structure LogGroupProps where
  constructId : String
  retentionDays : Nat
deriving DecidableEq, Repr

/-- Parameters of the `logs.LogStream` declaration.  `logGroup` is the
construct id of the group the stream belongs to. -/
structure LogStreamProps where
  constructId : String
  logGroup : String
deriving DecidableEq, Repr

/-- One `CfnOutput` record: logical name, value, optional export name. -/
structure OutputProps where
  name : String
  value : String
  exportName : Option String
deriving DecidableEq, Repr

/-- One resource declaration registered against the stack scope. -/
inductive Resource where
  | vpc (props : VpcProps)
  | stringParameter (props : StringParameterProps)
  | kmsKey (props : KeyProps)
  | kmsAlias (props : AliasProps)
  | bucket (props : BucketProps)
  | iamRole (props : RoleProps)
  | glueDatabase (props : DatabaseProps)
  | lfPermissions (props : PermissionsProps)
  | logGroup (props : LogGroupProps)
  | logStream (props : LogStreamProps)
  | cfnOutput (props : OutputProps)
deriving DecidableEq, Repr

/-- The `ec2.Vpc` declaration (`cidr="11.19.224.0/19"`, both DNS flags true),
together with the `Tags.of(self.vpc).add("Name", "aws-sdk-pandas")` tag. -/
def awsSdkPandasVpc : VpcProps :=
  { cidr := "11.19.224.0/19"
    enableDnsHostnames := true
    enableDnsSupport := true
    tags := [("Name", "aws-sdk-pandas")] }

/-- The SSM parameter declared for one public subnet inside the
`for public_subnet in self.vpc.public_subnets` loop, when
`node.find_child("EIP")` succeeds; `none` when it raises. -/
def eipParamOf (s : PublicSubnet) : Option StringParameterProps :=
  s.eipRef.map fun eip =>
    { stringValue := eip
      parameterName := "/SDKPandas/VPC/" ++ s.nodeId ++ "/EIP"
      description := "Elastic IP associated with public subnet " ++ s.subnetId }

/-- The loop over `self.vpc.public_subnets`: declare one string parameter per
public subnet, aborting (like the raised `find_child` error) as soon as a
subnet has no `EIP` child. -/
def declareEipParams : List PublicSubnet → Option (List StringParameterProps)
  | [] => some []
  | s :: rest =>
    (eipParamOf s).bind fun p =>
      (declareEipParams rest).map fun ps => p :: ps

/-- The `kms.Key` declaration. -/
def awsSdkPandasKey : KeyProps :=
  { description := "AWS SDK for pandas Test Key."
    policy :=
      [{ sid := some "Enable IAM User Permissions"
         actions := ["kms:*"]
         principals := ["AccountRootPrincipal"]
         resources := ["*"] }] }

/-- The `kms.Alias` declaration targeting the key. -/
def awsSdkPandasKeyAlias : AliasProps :=
  { aliasName := "alias/aws-sdk-pandas-key"
    targetKeyId := "aws-sdk-pandas-key" }

/-- The `s3.Bucket` declaration. -/
def awsSdkPandasBucket : BucketProps :=
  { blockPublicAccess :=
      { blockPublicAcls := true
        blockPublicPolicy := true
        ignorePublicAcls := true
        restrictPublicBuckets := true }
    lifecycleRules :=
      [{ id := "CleaningUp"
         enabled := true
         expirationDays := 1
         abortIncompleteMultipartUploadAfterDays := 1 }]
    versioned := true }

/-- The `iam.Role` declaration for the Glue data-quality role. -/
def glueDataQualityRole : RoleProps :=
  { roleName := "GlueDataQualityRole"
    assumedBy := "glue.amazonaws.com"
    managedPolicies := ["AmazonS3FullAccess", "AWSGlueConsoleFullAccess"]
    inlinePolicies :=
      [("GetDataAccess",
        [{ sid := none
           actions := ["lakeformation:GetDataAccess"]
           principals := []
           resources := ["*"] }])] }

/-- The `glue.Database` declaration; its location URI interpolates the
bucket-name token. -/
def awsSdkPandasGlueDatabase (ctx : Ctx) : DatabaseProps :=
  { databaseName := "aws_sdk_pandas"
    locationUri := "s3://" ++ ctx.bucketName }

/-- The `lf.CfnPermissions` declaration binding the data-quality role to the
Glue database with an all-tables wildcard. -/
def glueDataQualityRoleLFPermissions (ctx : Ctx) : PermissionsProps :=
  { dataLakePrincipalIdentifier := ctx.roleArn
    databaseName := "aws_sdk_pandas"
    tableWildcard := true
    permissions := ["SELECT", "ALTER", "DESCRIBE", "DROP", "DELETE", "INSERT"] }

/-- The `logs.LogGroup` declaration; `RetentionDays.ONE_MONTH` is 30 days. -/
def awsSdkPandasLogGroup : LogGroupProps :=
  { constructId := "aws_sdk_pandas_log_group"
    retentionDays := 30 }

/-- The `logs.LogStream` declaration, belonging to the log group. -/
def awsSdkPandasLogStream : LogStreamProps :=
  { constructId := "aws_sdk_pandas_log_stream"
    logGroup := "aws_sdk_pandas_log_group" }

/-- The twelve `CfnOutput` declarations, in source order. -/
def stackOutputs (ctx : Ctx) (pub0 pub1 pub2 : PublicSubnet)
    (priv0 : PrivateSubnet) : List OutputProps :=
  [{ name := "Region", value := ctx.region, exportName := none },
   { name := "VPC", value := ctx.vpcId,
     exportName := some "aws-sdk-pandas-base-VPC" },
   { name := "PublicSubnet1", value := pub0.subnetId,
     exportName := some "aws-sdk-pandas-base-PublicSubnet1" },
   { name := "PublicSubnet2", value := pub1.subnetId,
     exportName := some "aws-sdk-pandas-base-PublicSubnet2" },
   { name := "PublicSubnet3", value := pub2.subnetId,
     exportName := some "aws-sdk-pandas-base-PublicSubnet3" },
   { name := "PrivateSubnet", value := priv0.subnetId,
     exportName := some "aws-sdk-pandas-base-PrivateSubnet" },
   { name := "KmsKeyArn", value := ctx.keyArn,
     exportName := some "aws-sdk-pandas-base-KmsKeyArn" },
   { name := "BucketName", value := ctx.bucketName,
     exportName := some "aws-sdk-pandas-base-BucketName" },
   { name := "GlueDatabaseName", value := "aws_sdk_pandas", exportName := none },
   { name := "GlueDataQualityRole", value := ctx.roleArn, exportName := none },
   { name := "LogGroupName", value := ctx.logGroupName, exportName := none },
   { name := "LogStream", value := ctx.logStreamName, exportName := none }]

/-- The full ordered list of resource declarations registered by a successful
run of `BaseStack.__init__`. -/
def assembleResources (ctx : Ctx) (eipParams : List StringParameterProps)
    (pub0 pub1 pub2 : PublicSubnet) (priv0 : PrivateSubnet) : List Resource :=
  Resource.vpc awsSdkPandasVpc ::
    (eipParams.map Resource.stringParameter ++
      [Resource.kmsKey awsSdkPandasKey,
       Resource.kmsAlias awsSdkPandasKeyAlias,
       Resource.bucket awsSdkPandasBucket,
       Resource.iamRole glueDataQualityRole,
       Resource.glueDatabase (awsSdkPandasGlueDatabase ctx),
       Resource.lfPermissions (glueDataQualityRoleLFPermissions ctx),
       Resource.logGroup awsSdkPandasLogGroup,
       Resource.logStream awsSdkPandasLogStream] ++
      (stackOutputs ctx pub0 pub1 pub2 priv0).map Resource.cfnOutput)

/-- `BaseStack.__init__`: given the construct context and the opaque
string-keyed `kwargs` map (passed through to `Stack.__init__` and never
inspected by this code), produce the list of declared resources, or `none`
when an unguarded access fails (`find_child("EIP")` on a public subnet
without an EIP child, or `public_subnets[0..2]` / `private_subnets[0]` out
of range). -/
def baseStackInit (ctx : Ctx) (kwargs : List (String × String)) :
    Option (List Resource) :=
  (declareEipParams ctx.publicSubnets).bind fun eipParams =>
  ctx.publicSubnets[0]?.bind fun pub0 =>
  ctx.publicSubnets[1]?.bind fun pub1 =>
  ctx.publicSubnets[2]?.bind fun pub2 =>
  ctx.privateSubnets[0]?.bind fun priv0 =>
  some (assembleResources ctx eipParams pub0 pub1 pub2 priv0)

/-- The `CfnOutput` records among a resource list, in declaration order. -/
def outputsOf (rs : List Resource) : List OutputProps :=
  rs.filterMap fun r =>
    match r with
    | .cfnOutput o => some o
    | _ => none

/-- The `ec2.Vpc` declarations among a resource list. -/
def vpcsOf (rs : List Resource) : List VpcProps :=
  rs.filterMap fun r =>
    match r with
    | .vpc v => some v
    | _ => none

/-- The `s3.Bucket` declarations among a resource list. -/
def bucketsOf (rs : List Resource) : List BucketProps :=
  rs.filterMap fun r =>
    match r with
    | .bucket b => some b
    | _ => none

/-- The `iam.Role` declarations among a resource list. -/
def rolesOf (rs : List Resource) : List RoleProps :=
  rs.filterMap fun r =>
    match r with
    | .iamRole p => some p
    | _ => none

/-- The `lf.CfnPermissions` declarations among a resource list. -/
def permissionsOf (rs : List Resource) : List PermissionsProps :=
  rs.filterMap fun r =>
    match r with
    | .lfPermissions p => some p
    | _ => none

/-- The `logs.LogGroup` declarations among a resource list. -/
def logGroupsOf (rs : List Resource) : List LogGroupProps :=
  rs.filterMap fun r =>
    match r with
    | .logGroup g => some g
    | _ => none

/-- The `logs.LogStream` declarations among a resource list. -/
def logStreamsOf (rs : List Resource) : List LogStreamProps :=
  rs.filterMap fun r =>
    match r with
    | .logStream s => some s
    | _ => none

/-- The `ssm.StringParameter` declarations among a resource list. -/
def stringParamsOf (rs : List Resource) : List StringParameterProps :=
  rs.filterMap fun r =>
    match r with
    | .stringParameter p => some p
    | _ => none

/-- A concrete context with three public subnets (each owning an EIP child)
and one private subnet, as the default `ec2.Vpc` yields in a three-AZ
region. -/
def sampleCtx : Ctx :=
  { publicSubnets :=
      [{ nodeId := "PublicSubnet1", subnetId := "subnet-pub1",
         eipRef := some "eip-1" },
       { nodeId := "PublicSubnet2", subnetId := "subnet-pub2",
         eipRef := some "eip-2" },
       { nodeId := "PublicSubnet3", subnetId := "subnet-pub3",
         eipRef := some "eip-3" }]
    privateSubnets := [{ subnetId := "subnet-priv1" }]
    region := "us-east-1"
    vpcId := "vpc-123"
    keyArn := "arn:aws:kms:key-1"
    bucketName := "bucket-1"
    roleArn := "arn:aws:iam:role-1"
    logGroupName := "lg-1"
    logStreamName := "ls-1" }

/-- The resource list produced by the construction on `sampleCtx`. -/
def sampleResources : List Resource :=
  (baseStackInit sampleCtx []).getD []

example : baseStackInit sampleCtx [] = some sampleResources := by rfl
example : (outputsOf sampleResources).length = 12 := by rfl

/-- Every successful construction decomposes into its framework inputs: the
per-public-subnet EIP parameters all resolved, the first three public subnets
and the first private subnet exist, and the resource list is their
assembly. -/
theorem baseStackInit_eq_some (ctx : Ctx) (kwargs : List (String × String))
    (rs : List Resource) (h : baseStackInit ctx kwargs = some rs) :
    ∃ eipParams pub0 pub1 pub2 priv0,
      declareEipParams ctx.publicSubnets = some eipParams ∧
      ctx.publicSubnets[0]? = some pub0 ∧
      ctx.publicSubnets[1]? = some pub1 ∧
      ctx.publicSubnets[2]? = some pub2 ∧
      ctx.privateSubnets[0]? = some priv0 ∧
      rs = assembleResources ctx eipParams pub0 pub1 pub2 priv0 := by
  unfold baseStackInit at h
  rcases he : declareEipParams ctx.publicSubnets with _ | eipParams <;>
    rw [he] at h
  · simp at h
  rcases h0 : ctx.publicSubnets[0]? with _ | pub0 <;> rw [h0] at h
  · simp at h
  rcases h1 : ctx.publicSubnets[1]? with _ | pub1 <;> rw [h1] at h
  · simp at h
  rcases h2 : ctx.publicSubnets[2]? with _ | pub2 <;> rw [h2] at h
  · simp at h
  rcases h3 : ctx.privateSubnets[0]? with _ | priv0 <;> rw [h3] at h
  · simp at h
  simp only [Option.some_bind, Option.some.injEq] at h
  exact ⟨eipParams, pub0, pub1, pub2, priv0, rfl, rfl, rfl, rfl, rfl, h.symm⟩

/-- The EIP-parameter loop succeeds exactly when every public subnet owns an
EIP child. -/
theorem declareEipParams_isSome (l : List PublicSubnet) :
    (declareEipParams l).isSome = true ↔
      ∀ s ∈ l, s.eipRef.isSome = true := by
  induction l with
  | nil => simp [declareEipParams]
  | cons s rest ih =>
    simp only [declareEipParams, List.mem_cons, forall_eq_or_imp, ← ih]
    rcases hs : s.eipRef with _ | e
    · simp [eipParamOf, hs]
    · rcases hr : declareEipParams rest with _ | ps <;>
        simp [eipParamOf, hs, hr]

/-- When the loop succeeds, it produces exactly one parameter per public
subnet, pointwise given by `eipParamOf`. -/
theorem declareEipParams_eq_some (l : List PublicSubnet)
    (ps : List StringParameterProps) (h : declareEipParams l = some ps) :
    List.Forall₂ (fun s p => eipParamOf s = some p) l ps := by
  induction l generalizing ps with
  | nil =>
    simp only [declareEipParams, Option.some.injEq] at h
    subst h
    exact List.Forall₂.nil
  | cons s rest ih =>
    simp only [declareEipParams] at h
    rcases hp : eipParamOf s with _ | p <;> rw [hp] at h
    · simp at h
    rcases hr : declareEipParams rest with _ | qs <;> rw [hr] at h
    · simp at h
    simp only [Option.some_bind, Option.map_some', Option.some.injEq] at h
    subst h
    exact List.Forall₂.cons hp (ih qs hr)

theorem outputsOf_assemble (ctx : Ctx) (eipParams : List StringParameterProps)
    (pub0 pub1 pub2 : PublicSubnet) (priv0 : PrivateSubnet) :
    outputsOf (assembleResources ctx eipParams pub0 pub1 pub2 priv0) =
      stackOutputs ctx pub0 pub1 pub2 priv0 := by
  simp [outputsOf, assembleResources, stackOutputs, List.filterMap_append,
    List.filterMap_map, Function.comp]

theorem vpcsOf_assemble (ctx : Ctx) (eipParams : List StringParameterProps)
    (pub0 pub1 pub2 : PublicSubnet) (priv0 : PrivateSubnet) :
    vpcsOf (assembleResources ctx eipParams pub0 pub1 pub2 priv0) =
      [awsSdkPandasVpc] := by
  simp [vpcsOf, assembleResources, stackOutputs, List.filterMap_append,
    List.filterMap_map, Function.comp]

theorem bucketsOf_assemble (ctx : Ctx) (eipParams : List StringParameterProps)
    (pub0 pub1 pub2 : PublicSubnet) (priv0 : PrivateSubnet) :
    bucketsOf (assembleResources ctx eipParams pub0 pub1 pub2 priv0) =
      [awsSdkPandasBucket] := by
  simp [bucketsOf, assembleResources, stackOutputs, List.filterMap_append,
    List.filterMap_map, Function.comp]

theorem rolesOf_assemble (ctx : Ctx) (eipParams : List StringParameterProps)
    (pub0 pub1 pub2 : PublicSubnet) (priv0 : PrivateSubnet) :
    rolesOf (assembleResources ctx eipParams pub0 pub1 pub2 priv0) =
      [glueDataQualityRole] := by
  simp [rolesOf, assembleResources, stackOutputs, List.filterMap_append,
    List.filterMap_map, Function.comp]

theorem permissionsOf_assemble (ctx : Ctx)
    (eipParams : List StringParameterProps)
    (pub0 pub1 pub2 : PublicSubnet) (priv0 : PrivateSubnet) :
    permissionsOf (assembleResources ctx eipParams pub0 pub1 pub2 priv0) =
      [glueDataQualityRoleLFPermissions ctx] := by
  simp [permissionsOf, assembleResources, stackOutputs, List.filterMap_append,
    List.filterMap_map, Function.comp]

theorem logGroupsOf_assemble (ctx : Ctx)
    (eipParams : List StringParameterProps)
    (pub0 pub1 pub2 : PublicSubnet) (priv0 : PrivateSubnet) :
    logGroupsOf (assembleResources ctx eipParams pub0 pub1 pub2 priv0) =
      [awsSdkPandasLogGroup] := by
  simp [logGroupsOf, assembleResources, stackOutputs, List.filterMap_append,
    List.filterMap_map, Function.comp]

theorem logStreamsOf_assemble (ctx : Ctx)
    (eipParams : List StringParameterProps)
    (pub0 pub1 pub2 : PublicSubnet) (priv0 : PrivateSubnet) :
    logStreamsOf (assembleResources ctx eipParams pub0 pub1 pub2 priv0) =
      [awsSdkPandasLogStream] := by
  simp [logStreamsOf, assembleResources, stackOutputs, List.filterMap_append,
    List.filterMap_map, Function.comp]

theorem stringParamsOf_assemble (ctx : Ctx)
    (eipParams : List StringParameterProps)
    (pub0 pub1 pub2 : PublicSubnet) (priv0 : PrivateSubnet) :
    stringParamsOf (assembleResources ctx eipParams pub0 pub1 pub2 priv0) =
      eipParams := by
  simp [stringParamsOf, assembleResources, stackOutputs,
    List.filterMap_append, List.filterMap_map, Function.comp,
    List.filterMap_eq_map]
  induction eipParams with
  | nil => rfl
  | cons p ps ih => simpa using ih

/-- When `eipParamOf` succeeds, the produced parameter holds the subnet's
elastic-IP value, a name derived from the subnet's node id, and a
description naming its subnet id. -/
theorem eipParamOf_spec (s : PublicSubnet) (p : StringParameterProps)
    (h : eipParamOf s = some p) :
    s.eipRef = some p.stringValue ∧
      p.parameterName = "/SDKPandas/VPC/" ++ s.nodeId ++ "/EIP" ∧
      p.description =
        "Elastic IP associated with public subnet " ++ s.subnetId := by
  rcases he : s.eipRef with _ | e <;>
    simp only [eipParamOf, he, Option.map_none', Option.map_some'] at h
  · exact absurd h (by simp)
  · cases Option.some.inj h
    exact ⟨rfl, rfl, rfl⟩

/-- C1 counterexample: on a concrete context with three public subnets and
one private subnet, the successful construction declares twelve output
records, not eleven as the claimed count of listed outputs states (the
spec's list omits the `Region` output). -/
theorem output_count_not_eleven_cex :
    baseStackInit sampleCtx [] = some sampleResources ∧
      (outputsOf sampleResources).length = 12 ∧
      (outputsOf sampleResources).length ≠ 11 :=
  ⟨rfl, rfl, by decide⟩

/-- C1 (amended): every successful construction of the stack declares
exactly twelve output records — the eleven named in the spec's list
(network id, 3 public subnet ids, 1 private subnet id, key ARN, bucket
name, database name, role ARN, log group name, log stream name) plus the
region output — a fixed count, invariant across runs. -/
theorem output_count_eq_twelve (ctx : Ctx) (kwargs : List (String × String))
    (rs : List Resource) (h : baseStackInit ctx kwargs = some rs) :
    (outputsOf rs).length = 12 := by
  obtain ⟨eipParams, pub0, pub1, pub2, priv0, -, -, -, -, -, hrs⟩ :=
    baseStackInit_eq_some ctx kwargs rs h
  subst hrs
  rw [outputsOf_assemble]
  rfl

/-- Witness for C1's amended theorem at the concrete sample context. -/
theorem output_count_eq_twelve_witness :
    (outputsOf sampleResources).length = 12 :=
  output_count_eq_twelve sampleCtx [] sampleResources rfl

/-- C2: every successful construction declares exactly one permission
grant; its principal is the data-quality role's ARN, its resource scope is
the `aws_sdk_pandas` catalog database with an all-tables wildcard, and its
action set is exactly SELECT, ALTER, DESCRIBE, DROP, DELETE, INSERT — no
more, no fewer. -/
theorem lf_permissions_exact (ctx : Ctx) (kwargs : List (String × String))
    (rs : List Resource) (h : baseStackInit ctx kwargs = some rs) :
    permissionsOf rs =
      [{ dataLakePrincipalIdentifier := ctx.roleArn
         databaseName := "aws_sdk_pandas"
         tableWildcard := true
         permissions :=
           ["SELECT", "ALTER", "DESCRIBE", "DROP", "DELETE", "INSERT"] }] ∧
      ∀ p ∈ permissionsOf rs, ∀ a : String,
        a ∈ p.permissions ↔
          a = "SELECT" ∨ a = "ALTER" ∨ a = "DESCRIBE" ∨ a = "DROP" ∨
            a = "DELETE" ∨ a = "INSERT" := by
  obtain ⟨eipParams, pub0, pub1, pub2, priv0, -, -, -, -, -, hrs⟩ :=
    baseStackInit_eq_some ctx kwargs rs h
  subst hrs
  rw [permissionsOf_assemble]
  refine ⟨rfl, ?_⟩
  intro p hp a
  simp only [List.mem_singleton] at hp
  subst hp
  simp [glueDataQualityRoleLFPermissions]

/-- Witness for C2's theorem at the concrete sample context. -/
theorem lf_permissions_exact_witness :
    permissionsOf sampleResources =
      [{ dataLakePrincipalIdentifier := sampleCtx.roleArn
         databaseName := "aws_sdk_pandas"
         tableWildcard := true
         permissions :=
           ["SELECT", "ALTER", "DESCRIBE", "DROP", "DELETE", "INSERT"] }] ∧
      ∀ p ∈ permissionsOf sampleResources, ∀ a : String,
        a ∈ p.permissions ↔
          a = "SELECT" ∨ a = "ALTER" ∨ a = "DESCRIBE" ∨ a = "DROP" ∨
            a = "DELETE" ∨ a = "INSERT" :=
  lf_permissions_exact sampleCtx [] sampleResources rfl

/-- C3: every successful construction, whatever the opaque configuration
map, declares exactly one storage bucket, and that bucket has exactly one
lifecycle rule — enabled, with object expiration after 1 day and abort of
incomplete multipart uploads after 1 day. -/
theorem bucket_lifecycle_one_day (ctx : Ctx) (kwargs : List (String × String))
    (rs : List Resource) (h : baseStackInit ctx kwargs = some rs) :
    bucketsOf rs =
      [{ blockPublicAccess :=
           { blockPublicAcls := true
             blockPublicPolicy := true
             ignorePublicAcls := true
             restrictPublicBuckets := true }
         lifecycleRules :=
           [{ id := "CleaningUp"
              enabled := true
              expirationDays := 1
              abortIncompleteMultipartUploadAfterDays := 1 }]
         versioned := true }] := by
  obtain ⟨eipParams, pub0, pub1, pub2, priv0, -, -, -, -, -, hrs⟩ :=
    baseStackInit_eq_some ctx kwargs rs h
  subst hrs
  rw [bucketsOf_assemble]
  rfl

/-- Witness for C3's theorem at the concrete sample context. -/
theorem bucket_lifecycle_one_day_witness :
    bucketsOf sampleResources =
      [{ blockPublicAccess :=
           { blockPublicAcls := true
             blockPublicPolicy := true
             ignorePublicAcls := true
             restrictPublicBuckets := true }
         lifecycleRules :=
           [{ id := "CleaningUp"
              enabled := true
              expirationDays := 1
              abortIncompleteMultipartUploadAfterDays := 1 }]
         versioned := true }] :=
  bucket_lifecycle_one_day sampleCtx [] sampleResources rfl

/-- C4: every successful construction declares exactly one network
resource, with CIDR block `11.19.224.0/19` and with both the DNS-hostnames
flag and the DNS-support flag enabled. -/
theorem vpc_unique_cidr_dns (ctx : Ctx) (kwargs : List (String × String))
    (rs : List Resource) (h : baseStackInit ctx kwargs = some rs) :
    vpcsOf rs =
      [{ cidr := "11.19.224.0/19"
         enableDnsHostnames := true
         enableDnsSupport := true
         tags := [("Name", "aws-sdk-pandas")] }] := by
  obtain ⟨eipParams, pub0, pub1, pub2, priv0, -, -, -, -, -, hrs⟩ :=
    baseStackInit_eq_some ctx kwargs rs h
  subst hrs
  rw [vpcsOf_assemble]
  rfl

/-- Witness for C4's theorem at the concrete sample context. -/
theorem vpc_unique_cidr_dns_witness :
    vpcsOf sampleResources =
      [{ cidr := "11.19.224.0/19"
         enableDnsHostnames := true
         enableDnsSupport := true
         tags := [("Name", "aws-sdk-pandas")] }] :=
  vpc_unique_cidr_dns sampleCtx [] sampleResources rfl

/-- C5: in every successful construction, the declared string-parameter
records correspond one-to-one, in order, to the network's public subnets:
each public subnet yields exactly one parameter holding that subnet's
elastic-IP value, named from that subnet's identifier, and no parameter
record is declared for any other subnet. -/
theorem eip_param_per_public_subnet (ctx : Ctx)
    (kwargs : List (String × String)) (rs : List Resource)
    (h : baseStackInit ctx kwargs = some rs) :
    List.Forall₂
      (fun (s : PublicSubnet) (p : StringParameterProps) =>
        s.eipRef = some p.stringValue ∧
          p.parameterName = "/SDKPandas/VPC/" ++ s.nodeId ++ "/EIP" ∧
          p.description =
            "Elastic IP associated with public subnet " ++ s.subnetId)
      ctx.publicSubnets (stringParamsOf rs) := by
  obtain ⟨eipParams, pub0, pub1, pub2, priv0, he, -, -, -, -, hrs⟩ :=
    baseStackInit_eq_some ctx kwargs rs h
  subst hrs
  rw [stringParamsOf_assemble]
  exact (declareEipParams_eq_some ctx.publicSubnets eipParams he).imp
    fun s p hsp => eipParamOf_spec s p hsp

/-- Witness for C5's theorem at the concrete sample context. -/
theorem eip_param_per_public_subnet_witness :
    List.Forall₂
      (fun (s : PublicSubnet) (p : StringParameterProps) =>
        s.eipRef = some p.stringValue ∧
          p.parameterName = "/SDKPandas/VPC/" ++ s.nodeId ++ "/EIP" ∧
          p.description =
            "Elastic IP associated with public subnet " ++ s.subnetId)
      sampleCtx.publicSubnets (stringParamsOf sampleResources) :=
  eip_param_per_public_subnet sampleCtx [] sampleResources rfl

/-- C6: in every successful construction, the output records are, in order,
exactly: the unexported region; the VPC id, three public subnet ids, one
private subnet id, key ARN and bucket name, each under its fixed
cross-stack export-name literal; and the unexported database name, role
ARN, log group name and log stream name.  No other output is exported. -/
theorem output_export_names_exact (ctx : Ctx)
    (kwargs : List (String × String)) (rs : List Resource)
    (h : baseStackInit ctx kwargs = some rs) :
    ∃ pub0 pub1 pub2 priv0,
      ctx.publicSubnets[0]? = some pub0 ∧
      ctx.publicSubnets[1]? = some pub1 ∧
      ctx.publicSubnets[2]? = some pub2 ∧
      ctx.privateSubnets[0]? = some priv0 ∧
      (outputsOf rs).map (fun o => (o.name, o.value, o.exportName)) =
        [("Region", ctx.region, none),
         ("VPC", ctx.vpcId, some "aws-sdk-pandas-base-VPC"),
         ("PublicSubnet1", pub0.subnetId,
           some "aws-sdk-pandas-base-PublicSubnet1"),
         ("PublicSubnet2", pub1.subnetId,
           some "aws-sdk-pandas-base-PublicSubnet2"),
         ("PublicSubnet3", pub2.subnetId,
           some "aws-sdk-pandas-base-PublicSubnet3"),
         ("PrivateSubnet", priv0.subnetId,
           some "aws-sdk-pandas-base-PrivateSubnet"),
         ("KmsKeyArn", ctx.keyArn, some "aws-sdk-pandas-base-KmsKeyArn"),
         ("BucketName", ctx.bucketName,
           some "aws-sdk-pandas-base-BucketName"),
         ("GlueDatabaseName", "aws_sdk_pandas", none),
         ("GlueDataQualityRole", ctx.roleArn, none),
         ("LogGroupName", ctx.logGroupName, none),
         ("LogStream", ctx.logStreamName, none)] := by
  obtain ⟨eipParams, pub0, pub1, pub2, priv0, -, h0, h1, h2, h3, hrs⟩ :=
    baseStackInit_eq_some ctx kwargs rs h
  subst hrs
  exact ⟨pub0, pub1, pub2, priv0, h0, h1, h2, h3, by
    rw [outputsOf_assemble]; rfl⟩

/-- Witness for C6's theorem at the concrete sample context. -/
theorem output_export_names_exact_witness :
    ∃ pub0 pub1 pub2 priv0,
      sampleCtx.publicSubnets[0]? = some pub0 ∧
      sampleCtx.publicSubnets[1]? = some pub1 ∧
      sampleCtx.publicSubnets[2]? = some pub2 ∧
      sampleCtx.privateSubnets[0]? = some priv0 ∧
      (outputsOf sampleResources).map
          (fun o => (o.name, o.value, o.exportName)) =
        [("Region", sampleCtx.region, none),
         ("VPC", sampleCtx.vpcId, some "aws-sdk-pandas-base-VPC"),
         ("PublicSubnet1", pub0.subnetId,
           some "aws-sdk-pandas-base-PublicSubnet1"),
         ("PublicSubnet2", pub1.subnetId,
           some "aws-sdk-pandas-base-PublicSubnet2"),
         ("PublicSubnet3", pub2.subnetId,
           some "aws-sdk-pandas-base-PublicSubnet3"),
         ("PrivateSubnet", priv0.subnetId,
           some "aws-sdk-pandas-base-PrivateSubnet"),
         ("KmsKeyArn", sampleCtx.keyArn,
           some "aws-sdk-pandas-base-KmsKeyArn"),
         ("BucketName", sampleCtx.bucketName,
           some "aws-sdk-pandas-base-BucketName"),
         ("GlueDatabaseName", "aws_sdk_pandas", none),
         ("GlueDataQualityRole", sampleCtx.roleArn, none),
         ("LogGroupName", sampleCtx.logGroupName, none),
         ("LogStream", sampleCtx.logStreamName, none)] :=
  output_export_names_exact sampleCtx [] sampleResources rfl

/-- C7: every successful construction declares the data-quality role with
exactly one trust principal (the glue service), exactly two attached
managed policies, and exactly one inline policy granting exactly the one
action `lakeformation:GetDataAccess`. -/
theorem glue_dq_role_exact (ctx : Ctx) (kwargs : List (String × String))
    (rs : List Resource) (h : baseStackInit ctx kwargs = some rs) :
    rolesOf rs =
      [{ roleName := "GlueDataQualityRole"
         assumedBy := "glue.amazonaws.com"
         managedPolicies := ["AmazonS3FullAccess", "AWSGlueConsoleFullAccess"]
         inlinePolicies :=
           [("GetDataAccess",
             [{ sid := none
                actions := ["lakeformation:GetDataAccess"]
                principals := []
                resources := ["*"] }])] }] ∧
      ∀ r ∈ rolesOf rs,
        r.managedPolicies.length = 2 ∧ r.inlinePolicies.length = 1 ∧
          ∀ ip ∈ r.inlinePolicies, ∀ st ∈ ip.2,
            st.actions = ["lakeformation:GetDataAccess"] := by
  obtain ⟨eipParams, pub0, pub1, pub2, priv0, -, -, -, -, -, hrs⟩ :=
    baseStackInit_eq_some ctx kwargs rs h
  subst hrs
  rw [rolesOf_assemble]
  refine ⟨rfl, ?_⟩
  intro r hr
  simp only [List.mem_singleton] at hr
  subst hr
  refine ⟨rfl, rfl, ?_⟩
  intro ip hip st hst
  simp only [glueDataQualityRole, List.mem_singleton] at hip
  subst hip
  simp only [List.mem_singleton] at hst
  subst hst
  rfl

/-- Witness for C7's theorem at the concrete sample context. -/
theorem glue_dq_role_exact_witness :
    rolesOf sampleResources =
      [{ roleName := "GlueDataQualityRole"
         assumedBy := "glue.amazonaws.com"
         managedPolicies := ["AmazonS3FullAccess", "AWSGlueConsoleFullAccess"]
         inlinePolicies :=
           [("GetDataAccess",
             [{ sid := none
                actions := ["lakeformation:GetDataAccess"]
                principals := []
                resources := ["*"] }])] }] ∧
      ∀ r ∈ rolesOf sampleResources,
        r.managedPolicies.length = 2 ∧ r.inlinePolicies.length = 1 ∧
          ∀ ip ∈ r.inlinePolicies, ∀ st ∈ ip.2,
            st.actions = ["lakeformation:GetDataAccess"] :=
  glue_dq_role_exact sampleCtx [] sampleResources rfl

/-- C8: every successful construction declares exactly one log group, with
a 30-day retention period, and exactly one log stream, which belongs to
that log group. -/
theorem log_group_stream_exact (ctx : Ctx) (kwargs : List (String × String))
    (rs : List Resource) (h : baseStackInit ctx kwargs = some rs) :
    logGroupsOf rs =
      [{ constructId := "aws_sdk_pandas_log_group", retentionDays := 30 }] ∧
      logStreamsOf rs =
        [{ constructId := "aws_sdk_pandas_log_stream"
           logGroup := "aws_sdk_pandas_log_group" }] ∧
      ∀ g ∈ logGroupsOf rs, ∀ s ∈ logStreamsOf rs,
        s.logGroup = g.constructId := by
  obtain ⟨eipParams, pub0, pub1, pub2, priv0, -, -, -, -, -, hrs⟩ :=
    baseStackInit_eq_some ctx kwargs rs h
  subst hrs
  rw [logGroupsOf_assemble, logStreamsOf_assemble]
  refine ⟨rfl, rfl, ?_⟩
  intro g hg s hs
  simp only [List.mem_singleton] at hg hs
  subst hg
  subst hs
  rfl

/-- Witness for C8's theorem at the concrete sample context. -/
theorem log_group_stream_exact_witness :
    logGroupsOf sampleResources =
      [{ constructId := "aws_sdk_pandas_log_group", retentionDays := 30 }] ∧
      logStreamsOf sampleResources =
        [{ constructId := "aws_sdk_pandas_log_stream"
           logGroup := "aws_sdk_pandas_log_group" }] ∧
      ∀ g ∈ logGroupsOf sampleResources, ∀ s ∈ logStreamsOf sampleResources,
        s.logGroup = g.constructId :=
  log_group_stream_exact sampleCtx [] sampleResources rfl

/-- C9: the declaration is deterministic — two constructions with identical
scope/identity context and identical configuration map produce identical
declared resource graphs.  The construction reads no input beyond its
context and configuration (no clock, randomness or external state), so it
is a pure function of them. -/
theorem baseStackInit_deterministic (ctx1 ctx2 : Ctx)
    (kwargs1 kwargs2 : List (String × String)) (hc : ctx1 = ctx2)
    (hk : kwargs1 = kwargs2) :
    baseStackInit ctx1 kwargs1 = baseStackInit ctx2 kwargs2 := by
  subst hc
  subst hk
  rfl

/-- Witness for C9's theorem at the concrete sample context. -/
theorem baseStackInit_deterministic_witness :
    baseStackInit sampleCtx [] = baseStackInit sampleCtx [] :=
  baseStackInit_deterministic sampleCtx sampleCtx [] [] rfl rfl

/-- C10: construction succeeds exactly when the derived network yields at
least three public subnets, every public subnet owns an elastic-IP child,
and there is at least one private subnet; under that precondition the
unguarded accesses (`public_subnets[0..2]`, `private_subnets[0]`, and
`find_child("EIP")` on each public subnet) are all in bounds. -/
theorem baseStackInit_isSome_iff (ctx : Ctx)
    (kwargs : List (String × String)) :
    (baseStackInit ctx kwargs).isSome = true ↔
      (∀ s ∈ ctx.publicSubnets, s.eipRef.isSome = true) ∧
        3 ≤ ctx.publicSubnets.length ∧ 1 ≤ ctx.privateSubnets.length := by
  constructor
  · intro h
    obtain ⟨rs, hrs⟩ := Option.isSome_iff_exists.mp h
    obtain ⟨eipParams, pub0, pub1, pub2, priv0, he, -, -, h2, h3, -⟩ :=
      baseStackInit_eq_some ctx kwargs rs hrs
    refine ⟨(declareEipParams_isSome ctx.publicSubnets).mp (by rw [he]; rfl),
      ?_, ?_⟩
    · exact (List.getElem?_eq_some.mp h2).1
    · exact (List.getElem?_eq_some.mp h3).1
  · rintro ⟨hall, hpub, hpriv⟩
    obtain ⟨eipParams, he⟩ := Option.isSome_iff_exists.mp
      ((declareEipParams_isSome ctx.publicSubnets).mpr hall)
    have h0 : ctx.publicSubnets[0]? = some ctx.publicSubnets[0] :=
      List.getElem?_eq_getElem (by omega)
    have h1 : ctx.publicSubnets[1]? = some ctx.publicSubnets[1] :=
      List.getElem?_eq_getElem (by omega)
    have h2 : ctx.publicSubnets[2]? = some ctx.publicSubnets[2] :=
      List.getElem?_eq_getElem (by omega)
    have h3 : ctx.privateSubnets[0]? = some ctx.privateSubnets[0] :=
      List.getElem?_eq_getElem (by omega)
    unfold baseStackInit
    rw [he, h0, h1, h2, h3]
    rfl

/-- Witness for C10's theorem at the concrete sample context. -/
theorem baseStackInit_isSome_iff_witness :
    (baseStackInit sampleCtx []).isSome = true ↔
      (∀ s ∈ sampleCtx.publicSubnets, s.eipRef.isSome = true) ∧
        3 ≤ sampleCtx.publicSubnets.length ∧
        1 ≤ sampleCtx.privateSubnets.length :=
  baseStackInit_isSome_iff sampleCtx []
